import Mathlib

/-!
Verification of the mobile-QA agent repository against its specification.

The development shallowly embeds the algorithmic core of the repository:

* `src/adb_tools.py` — the ElementTree-based UI-hierarchy parser
  (`parse_ui_elements`) and the element-resolution heuristics
  (`find_element_by_text`, `find_input_field`);
* `src/src/mobile_qa_agent/tools/adb_tools.py` — the regex-based duplicate
  of the parser (`parse_ui_elements`, modelled here at string level as
  `parse_ui_elements_mqa`);
* `src/agents.py` — the planner's loop/oscillation detection and the
  focus-then-type enforcement (`_check_for_loop`,
  `_get_required_next_action`, `plan_next_action`, and the safeguard in
  `MobileQAOrchestrator.run_test`);
* `src/src/mobile_qa_agent/tools/metrics.py` — the metrics/reward engine
  (`MetricsTracker.record_step`, `_check_subgoals`, `_match_ideal_action`,
  `finalize`).

Device I/O (adb calls), the LLM invocation, JSON decoding of LLM replies
and wall-clock timestamps are external effects: they are abstracted as
function arguments (a parse oracle, the proposed action, the fixed element
list of the current snapshot).  Python floats are modelled as rationals;
Python string `lower()`/`strip()` are modelled by the ASCII `strLower`/
`strStrip` below (all strings the repository handles are ASCII).
-/

/-! ## String helpers (Python `in`, `find`, slicing over characters) -/

/-- `charsPrefixOf p l` decides whether the character list `p` is a prefix
of `l`. -/
def charsPrefixOf : List Char → List Char → Bool
  | [], _ => true
  | _ :: _, [] => false
  | p :: ps, c :: cs => p == c && charsPrefixOf ps cs

/-- `charsContains l p`: Python's substring test `p in l` on character
lists (the empty pattern is contained in every string). -/
def charsContains : List Char → List Char → Bool
  | [], p => p.isEmpty
  | c :: t, p => charsPrefixOf p (c :: t) || charsContains t p

/-- Python's `needle in hay` on strings. -/
def strContains (hay pat : String) : Bool :=
  charsContains hay.toList pat.toList

/-- Python's `hay.find(pat)` (index of the first occurrence), `none` for
`-1`. -/
def charsFindIdx : List Char → List Char → Option Nat
  | [], p => if p.isEmpty then some 0 else none
  | c :: t, p =>
    if charsPrefixOf p (c :: t) then some 0
    else (charsFindIdx t p).map (· + 1)

/-- ASCII lower-casing of one character (Python's `str.lower` on the
ASCII strings the repository handles). -/
def charLower (c : Char) : Char :=
  if 'A' ≤ c ∧ c ≤ 'Z' then Char.ofNat (c.toNat + 32) else c

/-- Python's `s.lower()` (ASCII). -/
def strLower (s : String) : String :=
  String.mk (s.toList.map charLower)

/-- ASCII whitespace, for Python's `str.strip`. -/
def isSpaceChar (c : Char) : Bool :=
  c == ' ' || c == '\t' || c == '\n' || c == '\r'

/-- Python's `s.strip()`. -/
def strStrip (s : String) : String :=
  String.mk (((s.toList.dropWhile isSpaceChar).reverse.dropWhile isSpaceChar).reverse)

/-! ## `src/adb_tools.py`: the ElementTree-based hierarchy parser

A parsed XML node carries an attribute list and a child list; the
`ET.fromstring` library call is abstracted as an oracle
`String → Option XmlNode` (`none` models the `ET.ParseError` the source
catches). -/

/-- One UI element, mirroring the dict built by `parse_ui_elements` in
`src/adb_tools.py` (center/width/height are stored exactly as the source
stores them in the dict). -/
structure UIElement where
  text : String
  content_desc : String
  resource_id : String
  class_name : String
  clickable : Bool
  focusable : Bool
  focused : Bool
  bounds : Int × Int × Int × Int
  center_x : Int
  center_y : Int
  width : Int
  height : Int
deriving DecidableEq

/-- A parsed XML node: attribute list plus children, in document order. -/
inductive XmlNode where
  | mk (attrs : List (String × String)) (children : List XmlNode)

/-- Python's `node.get(name, default)`. -/
def attr_get (attrs : List (String × String)) (name dflt : String) : String :=
  match attrs.find? (fun kv => kv.1 == name) with
  | some kv => kv.2
  | none => dflt

/-- Greedy `\d+`: take at least one leading ASCII digit, return its value
and the rest. -/
def takeNatDigits (l : List Char) : Option (Nat × List Char) :=
  let ds := l.takeWhile Char.isDigit
  if ds.isEmpty then none
  else some (ds.foldl (fun a c => a * 10 + (c.toNat - 48)) 0, l.drop ds.length)

/-- Expect one literal character. -/
def expectChar (c : Char) : List Char → Option (List Char)
  | x :: rest => if x == c then some rest else none
  | [] => none

/-- `re.match(r'\[(\d+),(\d+)\]\[(\d+),(\d+)\]', s)`: anchored at the
start of `s`, trailing characters allowed.  `none` models a failed match. -/
def parse_bounds_opt (s : String) : Option (Int × Int × Int × Int) := do
  let l0 ← expectChar '[' s.toList
  let (x1, l1) ← takeNatDigits l0
  let l2 ← expectChar ',' l1
  let (y1, l3) ← takeNatDigits l2
  let l4 ← expectChar ']' l3
  let l5 ← expectChar '[' l4
  let (x2, l6) ← takeNatDigits l5
  let l7 ← expectChar ',' l6
  let (y2, l8) ← takeNatDigits l7
  let _ ← expectChar ']' l8
  pure ((x1 : Int), (y1 : Int), (x2 : Int), (y2 : Int))

/-- `parse_bounds` of `src/adb_tools.py`: a bounds string that does not
match the pattern decodes to `(0, 0, 0, 0)`. -/
def parse_bounds (s : String) : Int × Int × Int × Int :=
  (parse_bounds_opt s).getD (0, 0, 0, 0)

/-- The per-node body of `traverse` in `parse_ui_elements`
(`src/adb_tools.py`): attribute extraction, center computation and the
inclusion test `(text or content_desc or clickable or focusable) and
(x2 - x1) > 10 and (y2 - y1) > 10`. -/
def node_element (attrs : List (String × String)) : List UIElement :=
  let text := attr_get attrs "text" ""
  let content_desc := attr_get attrs "content-desc" ""
  let resource_id := attr_get attrs "resource-id" ""
  let class_name := attr_get attrs "class" ""
  let clickable := attr_get attrs "clickable" "false" == "true"
  let focusable := attr_get attrs "focusable" "false" == "true"
  let focused := attr_get attrs "focused" "false" == "true"
  let b := parse_bounds (attr_get attrs "bounds" "[0,0][0,0]")
  let x1 := b.1
  let y1 := b.2.1
  let x2 := b.2.2.1
  let y2 := b.2.2.2
  if (text ≠ "" ∨ content_desc ≠ "" ∨ clickable = true ∨ focusable = true)
      ∧ x2 - x1 > 10 ∧ y2 - y1 > 10 then
    [⟨text, content_desc, resource_id, class_name, clickable, focusable,
      focused, b, (x1 + x2) / 2, (y1 + y2) / 2, x2 - x1, y2 - y1⟩]
  else []

/-- The recursive depth-first `traverse` of `parse_ui_elements`
(`src/adb_tools.py`), phrased as the standard pre-order worklist: the
current node's element (if retained) comes first, then its children's
subtrees in order, then the remaining siblings — the same element order
the source's recursion produces (named `traverse` in the source; renamed
to avoid a clash with Mathlib's `Traversable.traverse`). -/
def traverse_nodes : List XmlNode → List UIElement
  | [] => []
  | XmlNode.mk attrs children :: rest =>
    node_element attrs ++ traverse_nodes (children ++ rest)
termination_by l => sizeOf l
decreasing_by
  simp only [List.cons.sizeOf_spec, XmlNode.mk.sizeOf_spec]
  have h : ∀ l1 l2 : List XmlNode, sizeOf (l1 ++ l2) + 1 = sizeOf l1 + sizeOf l2 := by
    intro l1 l2
    induction l1 with
    | nil => simp only [List.nil_append, List.nil.sizeOf_spec]; omega
    | cons a t ih => simp only [List.cons_append, List.cons.sizeOf_spec]; omega
  have h2 := h children rest
  omega

/-- The leading cleanup of `parse_ui_elements` (`src/adb_tools.py`):
`strip`, then — unless the result starts with `<?xml` — drop everything
before the first `<?xml` occurrence, if any. -/
def xml_cleanup (xml_content : String) : String :=
  let s := strStrip xml_content
  if charsPrefixOf "<?xml".toList s.toList then s
  else
    match charsFindIdx s.toList "<?xml".toList with
    | some i => String.mk (s.toList.drop i)
    | none => s

/-- `parse_ui_elements` of `src/adb_tools.py`.  The `ET.fromstring`
library call is the oracle argument, `none` standing for the
`ET.ParseError` that the source catches and turns into the empty
result. -/
def parse_ui_elements (fromstring : String → Option XmlNode)
    (xml_content : String) : List UIElement :=
  match fromstring (xml_cleanup xml_content) with
  | none => []
  | some root => traverse_nodes [root]

/-! ## `src/adb_tools.py`: element resolution

`find_element_by_text` and `find_input_field` in the source fetch a fresh
hierarchy from the device and parse it; the resolution logic itself is a
pure function of the parsed element list, which is what is embedded here:
the `elements` argument stands for `parse_ui_elements(get_ui_hierarchy())`
of the current snapshot. -/

/-- The per-element text match of `find_element_by_text`
(`src/adb_tools.py`): case-insensitive match of the query against
`text + ' ' + content_desc`; `partial_match` selects substring versus
exact (after `strip`) comparison. -/
def elem_match_text (e : UIElement) (text_lower : String)
    (partial_match : Bool) : Bool :=
  let elem_text := strLower (e.text ++ " " ++ e.content_desc)
  if partial_match then strContains elem_text text_lower
  else text_lower == strStrip elem_text

/-- The ordered match list built by `find_element_by_text`. -/
def text_matches (elements : List UIElement) (text : String)
    (partial_match : Bool) : List UIElement :=
  elements.filter (fun e => elem_match_text e (strLower text) partial_match)

/-- Priority rule 1: the element's class name contains "button"
(case-insensitively). -/
def is_button_class (e : UIElement) : Bool :=
  strContains (strLower e.class_name) "button"

/-- Priority rule 3: vertical center beyond 1200, the lower half of the
default 1080x2400 screen (`get_screen_size`'s fallback resolution). -/
def in_lower_half (e : UIElement) : Bool :=
  decide (e.center_y > 1200)

/-- `find_element_by_text` of `src/adb_tools.py` (pure core; `partial` is
named `partial_match` here).  With several matches and `prefer_clickable`
set, the source returns the first Button-class match, else the first
clickable match, else the first match in the lower half of the screen,
else the first match. -/
def find_element_by_text (elements : List UIElement) (text : String)
    (partial_match : Bool) (prefer_clickable : Bool) : Option UIElement :=
  let ms := text_matches elements text partial_match
  if ms = [] then none
  else if ms.length = 1 then ms.head?
  else if prefer_clickable then
    match ms.find? is_button_class with
    | some e => some e
    | none =>
      match ms.find? (fun e => e.clickable) with
      | some e => some e
      | none =>
        match (ms.filter in_lower_half).head? with
        | some e => some e
        | none => ms.head?
  else ms.head?

/-- Stage 1+2 of `find_input_field`: EditText class or an edit/input
resource id. -/
def is_input_like (e : UIElement) : Bool :=
  strContains e.class_name "EditText" || strContains (strLower e.class_name) "edittext"
  || strContains (strLower e.resource_id) "edit" || strContains (strLower e.resource_id) "input"

/-- Stage 3 of `find_input_field`: placeholder text plus focusable,
clickable and large enough. -/
def is_placeholder_input (e : UIElement) : Bool :=
  decide (e.text ∈ ["My vault", "Write here", "Enter text", "Type here", ""])
  && e.focusable && e.clickable
  && decide (e.height > 40) && decide (e.width > 200)

/-- Stages 1-3 of `find_input_field`: the EditText/resource-id pass,
then the placeholder pass, which skips elements already collected
(the source's `if elem in input_fields: continue` checks the list as it
grows, hence the fold). -/
def stage_ab (elements : List UIElement) : List UIElement :=
  let stage_a := elements.filter is_input_like
  elements.foldl
    (fun acc e =>
      if e ∈ acc then acc
      else if is_placeholder_input e then acc ++ [e] else acc)
    stage_a

/-- Fallback stage 4 of `find_input_field`: focusable non-Button elements
whose text is non-empty and not a known label (the `'Button' not in class`
test is case-sensitive in the source). -/
def stage_c (elements : List UIElement) : List UIElement :=
  elements.filter (fun e =>
    e.focusable && !(strContains e.class_name "Button")
    && decide (e.text ≠ "") && decide (e.text ∉ ["Vault name", "Vault location"]))

/-- Fallback stage 5 of `find_input_field`: the first element strictly
below the resolved label within a 200-pixel window that is clickable or
has text (the source `break`s after the first hit). -/
def stage_d (elements : List UIElement) (label_text : Option String) :
    List UIElement :=
  match label_text with
  | none => []
  | some lt =>
    match find_element_by_text elements lt true true with
    | none => []
    | some label =>
      match elements.find? (fun e =>
          decide (e.center_y > label.center_y)
          && decide (e.center_y < label.center_y + 200)
          && (e.clickable || decide (e.text ≠ ""))) with
      | some e => [e]
      | none => []

/-- The `input_fields` candidate list of `find_input_field` at selection
time: each stage runs only if all earlier stages produced nothing. -/
def input_field_candidates (elements : List UIElement)
    (label_text : Option String) : List UIElement :=
  let fields := stage_ab elements
  let fields := if fields = [] then stage_c elements else fields
  let fields := if fields = [] then stage_d elements label_text else fields
  fields

/-- The nearest-below scan of `find_input_field`: walk the candidates,
keeping the first candidate strictly below `label_y` whose distance is
strictly smaller than the best so far (`best_dist` starts at infinity,
modelled by the `none` accumulator). -/
def nearest_below_go (label_y : Int) :
    List UIElement → Option UIElement → Option UIElement
  | [], best => best
  | f :: rest, best =>
    let best' :=
      if f.center_y > label_y then
        match best with
        | none => some f
        | some b =>
          if f.center_y - label_y < b.center_y - label_y then some f else best
      else best
    nearest_below_go label_y rest best'

/-- `find_input_field` of `src/adb_tools.py` (pure core): build the staged
candidate list; when a label was supplied and resolves, return the
nearest candidate strictly below it, falling back to the first candidate. -/
def find_input_field (elements : List UIElement)
    (label_text : Option String) : Option UIElement :=
  let input_fields := input_field_candidates elements label_text
  if input_fields = [] then none
  else
    match label_text with
    | some lt =>
      (match find_element_by_text elements lt true true with
       | some label =>
         (match nearest_below_go label.center_y input_fields none with
          | some best => some best
          | none => input_fields.head?)
       | none => input_fields.head?)
    | none => input_fields.head?

/-! ## `src/src/mobile_qa_agent/tools/adb_tools.py`: the regex-based
duplicate of `parse_ui_elements`

This variant never parses a document: it scans the raw string for
substrings matching `<node[^>]+>` and extracts each attribute with its
own regex search.  The regex semantics (leftmost match, greedy character
classes) are implemented directly over character lists. -/

/-- `re.finditer(r'<node[^>]+>', xml)`: every non-overlapping leftmost
match, as raw character lists.  At a `<node` occurrence the greedy
`[^>]+` runs to the next `>` and must be non-empty; a failed completion
resumes the scan one character further, a successful match resumes after
its closing `>`. -/
def scan_nodes_fuel : Nat → List Char → List (List Char)
  | 0, _ => []
  | _ + 1, [] => []
  | fuel + 1, c :: cs =>
    if charsPrefixOf "<node".toList (c :: cs) then
      let after := cs.drop 4
      let middle := after.takeWhile (fun x => x != '>')
      if middle.length ≥ 1 ∧ middle.length < after.length then
        ("<node".toList ++ middle ++ ['>'])
          :: scan_nodes_fuel fuel (after.drop (middle.length + 1))
      else scan_nodes_fuel fuel cs
    else scan_nodes_fuel fuel cs

/-- The scan of `re.finditer` over the whole input; every recursive step
of `scan_nodes_fuel` strictly shortens the list, so fuel equal to the
input length is never exhausted. -/
def scan_nodes (l : List Char) : List (List Char) :=
  scan_nodes_fuel l.length l

/-- `re.search(name + '="([^"]*)"', node)`: find the first occurrence of
the literal `name="`, capture greedily up to the next `"`, which must be
present; otherwise resume the search further right. -/
def attr_value_search (node : List Char) (pat : List Char) : Option String :=
  match node with
  | [] => none
  | c :: rest =>
    if charsPrefixOf pat (c :: rest) then
      let after := (c :: rest).drop pat.length
      let captured := after.takeWhile (fun x => x != '"')
      if captured.length < after.length then some (String.mk captured)
      else attr_value_search rest pat
    else attr_value_search rest pat

/-- The bracket-box body of the bounds regex followed by the closing
quote: `\[(\d+),(\d+)\]\[(\d+),(\d+)\]"`. -/
def parse_box_quoted (l : List Char) : Option (Nat × Nat × Nat × Nat) := do
  let l0 ← expectChar '[' l
  let (x1, l1) ← takeNatDigits l0
  let l2 ← expectChar ',' l1
  let (y1, l3) ← takeNatDigits l2
  let l4 ← expectChar ']' l3
  let l5 ← expectChar '[' l4
  let (x2, l6) ← takeNatDigits l5
  let l7 ← expectChar ',' l6
  let (y2, l8) ← takeNatDigits l7
  let l9 ← expectChar ']' l8
  let _ ← expectChar '"' l9
  pure (x1, y1, x2, y2)

/-- `re.search(r'bounds="\[(\d+),(\d+)\]\[(\d+),(\d+)\]"', node)`. -/
def bounds_search (node : List Char) : Option (Nat × Nat × Nat × Nat) :=
  match node with
  | [] => none
  | c :: rest =>
    if charsPrefixOf "bounds=\"".toList (c :: rest) then
      match parse_box_quoted ((c :: rest).drop 8) with
      | some v => some v
      | none => bounds_search rest
    else bounds_search rest

/-- One element of the regex-based parser, mirroring the dict it appends
(no `focused` key; `bounds` is `None` when the bounds regex fails). -/
structure MqaElement where
  text : String
  content_desc : String
  class_name : String
  clickable : Bool
  focusable : Bool
  center_x : Int
  center_y : Int
  width : Int
  height : Int
  bounds : Option (Nat × Nat × Nat × Nat)
  resource_id : String
deriving DecidableEq

/-- The per-node-string body of the regex-based `parse_ui_elements`: when
the bounds regex fails, center/width/height are all zero; the element is
appended unconditionally. -/
def mqa_node_element (node : List Char) : MqaElement :=
  let text := (attr_value_search node "text=\"".toList).getD ""
  let content_desc := (attr_value_search node "content-desc=\"".toList).getD ""
  let class_name := (attr_value_search node "class=\"".toList).getD ""
  let clickable := charsContains node "clickable=\"true\"".toList
  let focusable := charsContains node "focusable=\"true\"".toList
  let resource_id := (attr_value_search node "resource-id=\"".toList).getD ""
  match bounds_search node with
  | some (x1, y1, x2, y2) =>
    ⟨text, content_desc, class_name, clickable, focusable,
      ((x1 : Int) + x2) / 2, ((y1 : Int) + y2) / 2,
      (x2 : Int) - x1, (y2 : Int) - y1, some (x1, y1, x2, y2), resource_id⟩
  | none =>
    ⟨text, content_desc, class_name, clickable, focusable,
      0, 0, 0, 0, none, resource_id⟩

/-- `parse_ui_elements` of `src/src/mobile_qa_agent/tools/adb_tools.py`:
one element per `<node ...>` substring, with no inclusion filter of any
kind. -/
def parse_ui_elements_mqa (xml : String) : List MqaElement :=
  (scan_nodes xml.toList).map mqa_node_element

/-! ## `src/agents.py`: the planner's sequencing rules

History entries are the dicts `{**action, "result": ...}` appended by
`PlannerAgent.record_action`; parameter values are strings or integers.
The planner compares the tuple (action kind, parameters); the source
compares the f-string `f"{action_type}:{action_params}"`, which is equal
for equal tuples. -/

/-- A parameter value: the repository only ever stores strings and
integers in `action_params`. -/
inductive PValue where
  | s (v : String)
  | n (v : Int)
deriving DecidableEq

/-- One entry of `PlannerAgent.history`. -/
structure HistAction where
  action_type : String
  action_params : List (String × PValue)
  result : String
deriving DecidableEq

/-- An action dict as produced by the planner or the external model. -/
structure AgentAction where
  reasoning : String
  action_type : String
  action_params : List (String × PValue)
deriving DecidableEq

/-- The dict returned by `_check_for_loop` on a repeated-action loop. -/
def stuck_loop_action : AgentAction :=
  ⟨"Detected loop - same action repeated 3 times with no progress",
    "failed", [("reason", PValue.s "Stuck in loop. Need different approach.")]⟩

/-- The dict returned by `_check_for_loop` on an A,B,A,B oscillation. -/
def oscillation_action : AgentAction :=
  ⟨"Detected oscillation - going back and forth between screens",
    "failed", [("reason", PValue.s "Stuck oscillating. One action is taking us backwards.")]⟩

/-- The comparison key of the repeated-action check
(`f"{action_type}:{action_params}"` in the source, modelled as the pair
it renders). -/
def loop_key (a : HistAction) : String × List (String × PValue) :=
  (a.action_type, a.action_params)

/-- `PlannerAgent._check_for_loop`: with fewer than 3 history entries,
nothing; if the last 3 entries share one comparison key, the stuck-loop
failure; else, with at least 4 entries whose kinds follow A,B,A,B with
A ≠ B, the oscillation failure. -/
def check_for_loop (history : List HistAction) : Option AgentAction :=
  if history.length < 3 then none
  else
    let repeated :=
      match history.drop (history.length - 3) with
      | [a, b, c] => decide (loop_key a = loop_key b ∧ loop_key b = loop_key c)
      | _ => false
    if repeated then some stuck_loop_action
    else if 4 ≤ history.length then
      match history.drop (history.length - 4) with
      | [a, b, c, d] =>
        if a.action_type = c.action_type ∧ b.action_type = d.action_type
            ∧ a.action_type ≠ b.action_type then
          some oscillation_action
        else none
      | _ => none
    else none

/-- The per-test expected-text table, keyed by substring match against the
lowercased test description; the identical chain appears both in
`_get_required_next_action` and in the `run_test` safeguard. -/
def expected_text_for_test (test_case : String) : Option String :=
  let tl := strLower test_case
  if strContains tl "internvault" then some "InternVault"
  else if strContains tl "meeting notes" then some "Meeting Notes"
  else if strContains tl "daily standup" then some "Daily Standup"
  else none

/-- The forced type-text dict built by `_get_required_next_action`. -/
def forced_type_text_action (t : String) : AgentAction :=
  ⟨"Just tapped input field. MUST type \x27" ++ t ++ "\x27 now.",
    "type_text", [("text", PValue.s t)]⟩

/-- The forced press-enter dict built by `_get_required_next_action`. -/
def press_enter_forced_action : AgentAction :=
  ⟨"Just typed text. Pressing enter to dismiss keyboard.",
    "press_enter", []⟩

/-- `PlannerAgent._get_required_next_action`: after a successful
focus-input action, force type-text when the expected-text table has an
entry for this test (otherwise fall through); after a successful
type-text, force press-enter. -/
def get_required_next_action (history : List HistAction)
    (test_case : String) : Option AgentAction :=
  match history.getLast? with
  | none => none
  | some last =>
    let first :=
      if (last.action_type = "tap_input_by_label" ∨ last.action_type = "tap_input")
          ∧ last.result = "success" then
        (expected_text_for_test test_case).map forced_type_text_action
      else none
    match first with
    | some a => some a
    | none =>
      if last.action_type = "type_text" ∧ last.result = "success" then
        some press_enter_forced_action
      else none

/-- `PlannerAgent.plan_next_action`: the loop check runs first, then the
required-action enforcement, and only then is the externally proposed
action used.  The LLM call, prompt assembly and JSON extraction are
abstracted: `proposal` is the successfully decoded externally proposed
action (the source's JSON-error fallbacks are not modelled — no claim
concerns them). -/
def plan_next_action (history : List HistAction) (test_case : String)
    (proposal : AgentAction) : AgentAction :=
  match check_for_loop history with
  | some a => a
  | none =>
    match get_required_next_action history test_case with
    | some a => a
    | none => proposal

/-- The override dict built by the `run_test` safeguard. -/
def override_type_text_action (t : String) : AgentAction :=
  ⟨"OVERRIDE: Must type \x27" ++ t ++ "\x27 after tapping input",
    "type_text", [("text", PValue.s t)]⟩

/-- One planning step of `MobileQAOrchestrator.run_test`: the planner's
answer, corrected by the safeguard — if the last executed action was a
focus-input action (no success check here) and the chosen action is not
type-text, substitute the forced type-text when the expected-text table
has an entry. -/
def next_executed_action (history : List HistAction) (test_case : String)
    (proposal : AgentAction) : AgentAction :=
  let action := plan_next_action history test_case proposal
  match history.getLast? with
  | none => action
  | some last =>
    if (last.action_type = "tap_input" ∨ last.action_type = "tap_input_by_label")
        ∧ action.action_type ≠ "type_text" then
      match expected_text_for_test test_case with
      | some t => override_type_text_action t
      | none => action
    else action

/-! ## `src/src/mobile_qa_agent/tools/metrics.py`: the metrics engine

Reward constants are Python floats; they are modelled as rationals.
Wall-clock fields (timestamps, durations) and the advisory
`relevance_score` are omitted: they depend on `time.time()` and no claim
concerns them.  `json.dumps` of a parameter dict is rendered for the
string/integer values the repository uses (escaping of special characters
inside strings is not modelled). -/

/-- `json.dumps` of one value. -/
def json_value_str : PValue → String
  | .s v => "\"" ++ v ++ "\""
  | .n v => toString v

/-- `json.dumps` of a parameter dict (insertion order, `", "` and `": "`
separators). -/
def json_dumps (params : List (String × PValue)) : String :=
  "\x7b"
    ++ String.intercalate ", "
        (params.map (fun kv => "\"" ++ kv.1 ++ "\": " ++ json_value_str kv.2))
    ++ "\x7d"

/-- `json.dumps(action_params).lower() if action_params else ""`. -/
def params_str_of (params : List (String × PValue)) : String :=
  if params = [] then "" else strLower (json_dumps params)

/-- Python `str(value)` of one parameter value (no quotes around
strings). -/
def pvalue_raw_str : PValue → String
  | .s v => v
  | .n v => toString v

/-- Python `str(value)` inside a dict rendering (`repr` quoting; the
escaping `repr` performs on special characters is not modelled). -/
def pvalue_pystr : PValue → String
  | .s v => "\x27" ++ v ++ "\x27"
  | .n v => toString v

/-- Python `str` of a parameter dict, used by the source's
`f"{action_type}:{action_params}"` retry key. -/
def pystr_dict (params : List (String × PValue)) : String :=
  "\x7b"
    ++ String.intercalate ", "
        (params.map (fun kv => "\x27" ++ kv.1 ++ "\x27: " ++ pvalue_pystr kv.2))
    ++ "\x7d"

/-- One entry of an `IDEAL_WORKFLOWS` `ideal_actions` list. -/
structure RefStep where
  tool : String
  params : List (String × PValue)
  description : String
deriving DecidableEq

/-- `StepMetrics` (wall-clock fields and `relevance_score` omitted). -/
structure StepMetrics where
  step_number : Nat
  action_type : String
  action_params : List (String × PValue)
  success : Bool
  base_reward : ℚ
  subgoal_reward : ℚ
  total_step_reward : ℚ
  expected_action : Option String
  action_matches_expected : Bool
  screen_type_before : String
  screen_type_after : String
  elements_found : Nat
  newly_achieved_subgoals : List String
  cumulative_subgoals : List String
deriving DecidableEq

/-- The state of a `MetricsTracker` together with its `TestMetrics`
record (wall-clock fields omitted).  Sets are modelled as lists without
duplicates; dicts as association lists in insertion order. -/
structure MetricsTracker where
  test_case : String
  expected_result : String
  final_result : String := ""
  result_type : String := ""
  reasoning : String := ""
  steps : List StepMetrics := []
  total_steps : Nat := 0
  successful_steps : Nat := 0
  failed_steps : Nat := 0
  total_reward : ℚ := 0
  step_penalty_total : ℚ := 0
  subgoal_reward_total : ℚ := 0
  completion_bonus : ℚ := 0
  matches_expected : Bool := false
  ideal_workflow : List RefStep := []
  matched_ideal_steps : List Nat := []
  plan_adherence_score : ℚ := 0
  action_efficiency : ℚ := 0
  extra_actions : Nat := 0
  missed_actions : Nat := 0
  all_subgoals : List String := []
  achieved_subgoals_final : List String := []
  subgoal_completion_rate : ℚ := 0
  tool_usage_count : List (String × Nat) := []
  screen_transitions : List String := []
  error_count : Nat := 0
  retry_count : Nat := 0
  current_step : Nat := 0
  achieved_subgoals : List String := []
  matched_ideal_indices : List Nat := []
  tool_usage : List (String × Nat) := []
  last_screen_type : String := ""
  consecutive_same_actions : Nat := 0
  last_action : String := ""
deriving DecidableEq

/-- `MetricsTracker.STEP_PENALTY = -0.05`. -/
def STEP_PENALTY : ℚ := -(5 / 100)

/-- `MetricsTracker.SUBGOAL_REWARD = 0.2`. -/
def SUBGOAL_REWARD : ℚ := 2 / 10

/-- `MetricsTracker.COMPLETION_BONUS = 1.0`. -/
def COMPLETION_BONUS : ℚ := 1

/-- `MetricsTracker.__init__`.  `_load_ideal_workflow`'s lookup in the
`IDEAL_WORKFLOWS` table is passed in as the `workflow`/`subgoals`
arguments (the table's entry for test 1 is reproduced below as
`ideal_workflow_1`/`subgoals_1`); a test number outside the table gets
two empty lists. -/
def MetricsTracker.init (test_case : String) (workflow : List RefStep)
    (subgoals : List String) (expected_result : String) : MetricsTracker :=
  { test_case := test_case, expected_result := expected_result,
    ideal_workflow := workflow, all_subgoals := subgoals }

/-- `MetricsTracker.start_step` (the wall-clock step timer is omitted). -/
def MetricsTracker.start_step (st : MetricsTracker) : MetricsTracker :=
  { st with current_step := st.current_step + 1 }

/-- The `subgoal_conditions` table of `_check_subgoals`, one boolean per
known subgoal name over the lowercased action kind, the serialized
parameters and the lowercased resulting screen type; an unknown subgoal
name is never satisfied (the source skips names missing from the dict). -/
def subgoal_condition (subgoal action_lower params_str screen_lower : String) :
    Bool :=
  if subgoal = "tap_create_vault" then
    strContains params_str "create a vault" || strContains params_str "create_vault"
  else if subgoal = "handle_sync_screen" then
    strContains params_str "continue without sync" || strContains params_str "sync"
  else if subgoal = "enter_vault_name" then
    action_lower == "type_text_input"
      && (strContains params_str "vault" || strContains params_str "intern"
          || strContains params_str "test")
  else if subgoal = "confirm_vault_creation" then
    strContains params_str "create a vault" && screen_lower != "initial_vault_choice"
  else if subgoal = "select_folder" then strContains params_str "use this folder"
  else if subgoal = "handle_permissions" then strContains params_str "allow"
  else if subgoal = "enter_vault" then screen_lower == "inside_vault"
  else if subgoal = "tap_create_note" then strContains params_str "create new note"
  else if subgoal = "enter_note_title" then
    action_lower == "type_text_input"
      && (strContains params_str "meeting" || strContains params_str "project"
          || strContains params_str "todo")
  else if subgoal = "enter_note_content" then
    action_lower == "type_text_input"
      && (strContains params_str "daily" || strContains params_str "standup"
          || decide (params_str.length > 20))
  else if subgoal = "save_note" then screen_lower == "note_editor_with_title"
  else if subgoal = "open_sidebar" then
    action_lower == "tap_at_coordinates"
      && strContains params_str "100" && strContains params_str "128"
  else if subgoal = "open_settings" then
    strContains params_str "settings" || screen_lower == "settings_screen"
  else if subgoal = "find_appearance" then strContains params_str "appearance"
  else if subgoal = "open_appearance" then strContains params_str "appearance"
  else if subgoal = "verify_icon_color" then screen_lower == "appearance_settings"
  else if subgoal = "tap_search_icon" then
    action_lower == "tap_at_coordinates" && strContains params_str "148"
  else if subgoal = "enter_search_query" then action_lower == "type_text_input"
  else if subgoal = "verify_search_results" then
    strContains screen_lower "search" || strContains params_str "find"
  else if subgoal = "open_menu" then
    action_lower == "tap_at_coordinates" && strContains params_str "990"
  else if subgoal = "scroll_to_delete" then action_lower == "swipe_screen"
  else if subgoal = "tap_delete" then strContains params_str "delete"
  else if subgoal = "confirm_deletion" then strContains params_str "delete"
  else if subgoal = "select_theme" then
    strContains params_str "dark" || strContains params_str "theme"
      || strContains params_str "proper"
  else if subgoal = "exit_settings" then
    action_lower == "tap_at_coordinates" && screen_lower != "settings_screen"
  else if subgoal = "tap_plus_icon" then
    action_lower == "tap_at_coordinates"
      && strContains params_str "600" && strContains params_str "2292"
  else if subgoal = "restore_bottom_bar" then
    action_lower == "tap_at_coordinates"
      && strContains params_str "540" && strContains params_str "129"
  else if subgoal = "create_second_note" then
    strContains params_str "todo" || strContains params_str "second"
  else if subgoal = "tap_new_folder_icon" then
    action_lower == "tap_at_coordinates" && strContains params_str "253"
  else if subgoal = "enter_folder_name" then
    action_lower == "type_text_input" && strContains params_str "test"
  else if subgoal = "confirm_folder_creation" then strContains params_str "ok"
  else if subgoal = "position_cursor_in_body" then action_lower == "tap_at_coordinates"
  else if subgoal = "type_link_syntax" then strContains params_str "[["
  else if subgoal = "select_note_to_link" then
    action_lower == "tap_element_by_text"
      && (strContains params_str "meeting" || strContains params_str "project")
  else if subgoal = "verify_link_created" then screen_lower == "note_editor_with_title"
  else false

/-- `MetricsTracker._check_subgoals`: walk `all_subgoals` in order,
skipping subgoals already achieved (including ones achieved earlier in
this same call — the source adds to the achieved set while iterating). -/
def check_subgoals (all_subgoals achieved : List String)
    (action_type : String) (params : List (String × PValue))
    (screen_type : String) : List String :=
  let action_lower := strLower action_type
  let params_str := params_str_of params
  let screen_lower := strLower screen_type
  all_subgoals.foldl
    (fun newly sg =>
      if sg ∈ achieved ++ newly then newly
      else if subgoal_condition sg action_lower params_str screen_lower then
        newly ++ [sg]
      else newly)
    []

/-- Python `.replace("_", "")`. -/
def strip_underscores (s : String) : String :=
  String.mk (s.toList.filter (fun c => c != '_'))

/-- The tool comparison of `_match_ideal_action`: equality of the
lowercased names, or equality after removing underscores; the remaining
explicit disjuncts of the source are reproduced (each is subsumed by the
first). -/
def tool_matches (action_lower ideal_tool : String) : Bool :=
  action_lower == ideal_tool
  || strip_underscores action_lower == strip_underscores ideal_tool
  || (action_lower == "tap_at_coordinates" && ideal_tool == "tap_at_coordinates")
  || (action_lower == "tap_element_by_text" && ideal_tool == "tap_element_by_text")
  || (action_lower == "type_text_input" && ideal_tool == "type_text_input")
  || (action_lower == "get_screen_elements" && ideal_tool == "get_screen_elements")
  || (action_lower == "swipe_screen" && ideal_tool == "swipe_screen")

/-- Whether one reference step accepts this action: the tool must match;
a `get_screen_elements` step accepts unconditionally; a step with
expected parameters accepts when some expected value's lowercased `str`
appears in the serialized action parameters; a step without expected
parameters accepts on the tool match alone. -/
def ideal_step_accepts (step : RefStep) (action_lower params_str : String) :
    Bool :=
  let ideal_tool := strLower step.tool
  tool_matches action_lower ideal_tool
    && (ideal_tool == "get_screen_elements"
        || (if step.params = [] then true
            else step.params.any
              (fun kv => strContains params_str (strLower (pvalue_raw_str kv.2)))))

/-- The scan of `_match_ideal_action` over `enumerate(ideal_workflow)`
starting at index `start_idx`, skipping already-matched indices and
returning the first accepting entry. -/
def match_scan (workflow : List RefStep) (start_idx : Nat)
    (matched : List Nat) (action_lower params_str : String) :
    Option (Nat × RefStep) :=
  match workflow with
  | [] => none
  | step :: rest =>
    if start_idx ∈ matched then
      match_scan rest (start_idx + 1) matched action_lower params_str
    else if ideal_step_accepts step action_lower params_str then
      some (start_idx, step)
    else match_scan rest (start_idx + 1) matched action_lower params_str

/-- `MetricsTracker._match_ideal_action` (pure part; the caller adds the
returned index to the matched set). -/
def match_ideal_action (workflow : List RefStep) (matched : List Nat)
    (action_type : String) (params : List (String × PValue)) :
    Option (Nat × RefStep) :=
  match_scan workflow 0 matched (strLower action_type) (params_str_of params)

/-- Increment of the `tool_usage` dict. -/
def bump_tool_usage (usage : List (String × Nat)) (tool : String) :
    List (String × Nat) :=
  match usage.find? (fun kv => kv.1 == tool) with
  | some _ => usage.map (fun kv => if kv.1 == tool then (kv.1, kv.2 + 1) else kv)
  | none => usage ++ [(tool, 1)]

/-- The input of one `record_step` call. -/
structure StepInput where
  action_type : String
  action_params : List (String × PValue)
  success : Bool
  screen_type_before : String := ""
  screen_type_after : String := ""
  elements_found : Nat := 0
deriving DecidableEq

/-- `MetricsTracker.record_step` (step duration omitted). -/
def MetricsTracker.record_step (st : MetricsTracker) (inp : StepInput) :
    MetricsTracker :=
  let tool_usage := bump_tool_usage st.tool_usage inp.action_type
  let transition_taken :=
    inp.screen_type_after ≠ "" ∧ inp.screen_type_after ≠ st.last_screen_type
  let screen_transitions :=
    if transition_taken then
      st.screen_transitions
        ++ [st.last_screen_type ++ " -> " ++ inp.screen_type_after]
    else st.screen_transitions
  let last_screen_type :=
    if transition_taken then inp.screen_type_after else st.last_screen_type
  let action_key := inp.action_type ++ ":" ++ pystr_dict inp.action_params
  let consecutive :=
    if action_key = st.last_action then st.consecutive_same_actions + 1 else 0
  let retry_count :=
    if action_key = st.last_action ∧ st.consecutive_same_actions + 1 ≥ 2 then
      st.retry_count + 1
    else st.retry_count
  let error_count := if inp.success then st.error_count else st.error_count + 1
  let base_reward := STEP_PENALTY
  let newly := check_subgoals st.all_subgoals st.achieved_subgoals
    inp.action_type inp.action_params inp.screen_type_after
  let subgoal_reward := (newly.length : ℚ) * SUBGOAL_REWARD
  let matched := match_ideal_action st.ideal_workflow st.matched_ideal_indices
    inp.action_type inp.action_params
  let matched_indices :=
    match matched with
    | some p => st.matched_ideal_indices ++ [p.1]
    | none => st.matched_ideal_indices
  let achieved := st.achieved_subgoals ++ newly
  let step : StepMetrics :=
    { step_number := st.current_step,
      action_type := inp.action_type,
      action_params := inp.action_params,
      success := inp.success,
      base_reward := base_reward,
      subgoal_reward := subgoal_reward,
      total_step_reward := base_reward + subgoal_reward,
      expected_action := matched.map (fun p => p.2.description),
      action_matches_expected := matched.isSome,
      screen_type_before := inp.screen_type_before,
      screen_type_after := inp.screen_type_after,
      elements_found := inp.elements_found,
      newly_achieved_subgoals := newly,
      cumulative_subgoals := achieved }
  { st with
    tool_usage := tool_usage,
    screen_transitions := screen_transitions,
    last_screen_type := last_screen_type,
    consecutive_same_actions := consecutive,
    retry_count := retry_count,
    last_action := action_key,
    error_count := error_count,
    achieved_subgoals := achieved,
    matched_ideal_indices := matched_indices,
    steps := st.steps ++ [step],
    total_steps := st.total_steps + 1,
    successful_steps :=
      if inp.success then st.successful_steps + 1 else st.successful_steps,
    failed_steps :=
      if inp.success then st.failed_steps else st.failed_steps + 1,
    step_penalty_total := st.step_penalty_total + base_reward,
    subgoal_reward_total := st.subgoal_reward_total + subgoal_reward }

/-- `MetricsTracker.finalize` (duration fields omitted).  Nat subtraction
realizes the source's `max(0, total - ideal)` and `ideal - matched`. -/
def MetricsTracker.finalize (st : MetricsTracker)
    (final_result result_type reasoning : String) : MetricsTracker :=
  let completion_bonus :=
    if final_result = "PASS" then COMPLETION_BONUS else st.completion_bonus
  let total_reward :=
    st.step_penalty_total + st.subgoal_reward_total + completion_bonus
  let achieved_final := st.achieved_subgoals
  let subgoal_rate :=
    if st.all_subgoals ≠ [] then
      (achieved_final.length : ℚ) / (st.all_subgoals.length : ℚ)
    else st.subgoal_completion_rate
  let ideal_count := st.ideal_workflow.length
  let matched_ideal_steps :=
    if ideal_count > 0 then st.matched_ideal_indices else st.matched_ideal_steps
  let plan_adherence_score :=
    if ideal_count > 0 then
      (st.matched_ideal_indices.length : ℚ) / (ideal_count : ℚ)
    else st.plan_adherence_score
  let action_efficiency :=
    if ideal_count > 0 ∧ st.total_steps > 0 then
      min 1 ((ideal_count : ℚ) / (st.total_steps : ℚ))
    else st.action_efficiency
  let extra_actions :=
    if ideal_count > 0 then st.total_steps - ideal_count else st.extra_actions
  let missed_actions :=
    if ideal_count > 0 then ideal_count - st.matched_ideal_indices.length
    else st.missed_actions
  { st with
    final_result := final_result,
    result_type := result_type,
    reasoning := reasoning,
    completion_bonus := completion_bonus,
    total_reward := total_reward,
    matches_expected := decide (final_result = st.expected_result),
    achieved_subgoals_final := achieved_final,
    subgoal_completion_rate := subgoal_rate,
    matched_ideal_steps := matched_ideal_steps,
    plan_adherence_score := plan_adherence_score,
    action_efficiency := action_efficiency,
    extra_actions := extra_actions,
    missed_actions := missed_actions,
    tool_usage_count := st.tool_usage }

/-- One observe-decide-act-record cycle as driven by the harness:
`start_step` then `record_step`, folded over the run's step inputs. -/
def run_steps (st : MetricsTracker) (inputs : List StepInput) :
    MetricsTracker :=
  inputs.foldl (fun s inp => (s.start_step).record_step inp) st

/-- `IDEAL_WORKFLOWS[1]["ideal_actions"]` (the Create Vault test). -/
def ideal_workflow_1 : List RefStep :=
  [⟨"get_screen_elements", [], "Check initial screen"⟩,
   ⟨"tap_element_by_text", [("text", PValue.s "Create a vault")], "Tap Create a vault button"⟩,
   ⟨"get_screen_elements", [], "Check sync screen"⟩,
   ⟨"tap_element_by_text", [("text", PValue.s "Continue without sync")], "Skip sync setup"⟩,
   ⟨"get_screen_elements", [], "Check vault config screen"⟩,
   ⟨"type_text_input", [("text", PValue.s "InternVault")], "Enter vault name"⟩,
   ⟨"get_screen_elements", [], "Verify vault name entered"⟩,
   ⟨"tap_element_by_text", [("text", PValue.s "Create a vault")], "Confirm vault creation"⟩,
   ⟨"get_screen_elements", [], "Check file picker"⟩,
   ⟨"tap_element_by_text", [("text", PValue.s "USE THIS FOLDER")], "Select folder"⟩,
   ⟨"get_screen_elements", [], "Check for permission dialog"⟩,
   ⟨"tap_element_by_text", [("text", PValue.s "Allow")], "Grant permission"⟩,
   ⟨"get_screen_elements", [], "Verify inside vault"⟩]

/-- `IDEAL_WORKFLOWS[1]["subgoals"]`. -/
def subgoals_1 : List String :=
  ["tap_create_vault", "handle_sync_screen", "enter_vault_name",
   "confirm_vault_creation", "select_folder", "handle_permissions",
   "enter_vault"]

/-- Spec-side reference for the ideal-workflow matcher (stated from the
specification's words, for comparison with the source-derived
`match_ideal_action`): the first index, in original index order, that is
not yet matched and whose reference step accepts the action. -/
def spec_first_unmatched_claim (workflow : List RefStep) (matched : List Nat)
    (action_lower params_str : String) : Option Nat :=
  (workflow.enum.find? (fun p =>
    decide (p.1 ∉ matched)
      && ideal_step_accepts p.2 action_lower params_str)).map Prod.fst

/-! ## Concrete instances used by the witnesses and counterexamples -/

/-- Markup whose single node has a bounds attribute that does not match
the `[x1,y1][x2,y2]` pattern. -/
def c1_bad_markup : String := "<node text=\"a\" bounds=\"b\">"

/-- Truncated markup: the node tag is never closed, so the string has no
parseable XML document root (`ET.fromstring` rejects it), yet it contains
one `<node ...>` fragment. -/
def c9_bad_markup : String := "<node text=\"a\" bounds=\"[0,0][99,99]\">"

/-- The spec §8 scenario: a non-clickable TextView duplicate earlier in
traversal order. -/
def c2_textview : UIElement :=
  ⟨"Create a vault", "", "", "android.widget.TextView", false, false, false,
    (100, 300, 900, 400), 500, 350, 800, 100⟩

/-- The spec §8 scenario: the Button-class element later in traversal
order. -/
def c2_button : UIElement :=
  ⟨"Create a vault", "", "", "android.widget.Button", true, false, false,
    (100, 1000, 900, 1100), 500, 1050, 800, 100⟩

/-- A label element at vertical center 100. -/
def c3_label : UIElement :=
  ⟨"Vault name", "", "", "android.widget.TextView", false, false, false,
    (100, 80, 300, 120), 200, 100, 200, 40⟩

/-- An input field far below the label (first in document order). -/
def c3_input_far : UIElement :=
  ⟨"", "", "", "android.widget.EditText", true, true, false,
    (100, 450, 900, 550), 500, 500, 800, 100⟩

/-- An input field just below the label (last in document order). -/
def c3_input_near : UIElement :=
  ⟨"", "", "", "android.widget.EditText", true, true, false,
    (100, 150, 900, 250), 500, 200, 800, 100⟩

/-- A snapshot where the nearest input below the label is not the first
candidate in document order. -/
def c3_elements : List UIElement := [c3_label, c3_input_far, c3_input_near]

/-- One history record, repeated three times for the loop witness. -/
def c4_rec : HistAction :=
  ⟨"tap_element", [("text", PValue.s "Create a vault")], "failed"⟩

/-- A history whose last three records are identical. -/
def c4_history : List HistAction := [c4_rec, c4_rec, c4_rec]

/-- Oscillation witness record A. -/
def c5_a : HistAction := ⟨"press_back", [], "success"⟩

/-- Oscillation witness record B. -/
def c5_b : HistAction := ⟨"press_enter", [], "success"⟩

/-- A history whose last four records follow the A,B,A,B pattern. -/
def c5_history : List HistAction := [c5_a, c5_b, c5_a, c5_b]

/-- A successful focus-input record. -/
def c6_last : HistAction :=
  ⟨"tap_input_by_label", [("label", PValue.s "Vault name")], "success"⟩

/-- History consisting of one successful focus-input action. -/
def c6_history : List HistAction := [c6_last]

/-- An externally proposed action that is not type-text. -/
def c6_proposal : AgentAction :=
  ⟨"tap the create button", "tap_element", [("text", PValue.s "Create a vault")]⟩

/-- A test description containing "InternVault". -/
def c6_test_case : String := "Create a new vault named InternVault"

/-- A five-step run of the Create Vault test in which exactly two
subgoals (tap_create_vault, handle_sync_screen) are satisfied. -/
def c7_inputs : List StepInput :=
  [⟨"get_screen_elements", [], true, "", "initial_vault_choice", 10⟩,
   ⟨"tap_element_by_text", [("text", PValue.s "Create a vault")], true,
     "initial_vault_choice", "initial_vault_choice", 10⟩,
   ⟨"get_screen_elements", [], true, "initial_vault_choice", "sync_setup", 8⟩,
   ⟨"tap_element_by_text", [("text", PValue.s "Continue without sync")], true,
     "sync_setup", "sync_setup", 8⟩,
   ⟨"get_screen_elements", [], true, "sync_setup", "vault_configuration", 9⟩]

/-- The tracker after the five-step run. -/
def c7_run : MetricsTracker :=
  run_steps (MetricsTracker.init "Create a new Vault named InternVault"
    ideal_workflow_1 subgoals_1 "PASS") c7_inputs

/-- The finalized tracker of the five-step run. -/
def c7_final : MetricsTracker := c7_run.finalize "PASS" "test_passed" "Vault created"

/-! ## Theorems (helper lemmas first, then one theorem per claim with its
witness or counterexample) -/

/-- Every element retained by a single node visit passes the minimum-size
test. -/
theorem node_element_minsize (attrs : List (String × String)) :
    ∀ e ∈ node_element attrs, 10 < e.width ∧ 10 < e.height := by
  intro e he
  simp only [node_element] at he
  split at he
  · rename_i hcond
    simp only [List.mem_singleton] at he
    subst he
    exact ⟨hcond.2.1, hcond.2.2⟩
  · simp at he

/-- Every element produced by the traversal passes the minimum-size test. -/
theorem traverse_minsize (l : List XmlNode) :
    ∀ e ∈ traverse_nodes l, 10 < e.width ∧ 10 < e.height := by
  induction l using traverse_nodes.induct with
  | case1 => intro e he; simp [traverse_nodes] at he
  | case2 attrs children rest ih =>
    intro e he
    rw [traverse_nodes] at he
    rcases List.mem_append.1 he with h | h
    · exact node_element_minsize attrs e h
    · exact ih e h

/-- Claim C1 (amended): in the ElementTree-based parser of
`src/adb_tools.py`, a node whose bounds attribute does not match the
`[x1,y1][x2,y2]` pattern decodes to `(0,0,0,0)` and contributes no
element, and every element retained by `parse_ui_elements` has width and
height greater than 10.  (The regex-based duplicate parser applies no
size filter — see `claim_C1_counterexample`.) -/
theorem claim_C1_theorem :
    (∀ attrs : List (String × String),
        parse_bounds_opt (attr_get attrs "bounds" "[0,0][0,0]") = none →
          parse_bounds (attr_get attrs "bounds" "[0,0][0,0]") = (0, 0, 0, 0)
          ∧ node_element attrs = [])
    ∧ (∀ (fromstring : String → Option XmlNode) (xml : String),
        ∀ e ∈ parse_ui_elements fromstring xml, 10 < e.width ∧ 10 < e.height) := by
  constructor
  · intro attrs h
    have hb : parse_bounds (attr_get attrs "bounds" "[0,0][0,0]") = (0, 0, 0, 0) := by
      simp [parse_bounds, h]
    refine ⟨hb, ?_⟩
    simp only [node_element, hb]
    norm_num
  · intro fromstring xml e he
    simp only [parse_ui_elements] at he
    split at he
    · simp at he
    · exact traverse_minsize _ e he

/-- Witness for C1: a node whose bounds attribute is the non-matching
string "b" decodes to `(0,0,0,0)` and is dropped. -/
theorem claim_C1_witness :
    parse_bounds (attr_get [("text", "a"), ("bounds", "b")] "bounds" "[0,0][0,0]")
        = (0, 0, 0, 0)
      ∧ node_element [("text", "a"), ("bounds", "b")] = [] :=
  claim_C1_theorem.1 [("text", "a"), ("bounds", "b")] (by decide)

/-- Counterexample for C1 as stated: the regex-based duplicate
`parse_ui_elements` (`src/src/mobile_qa_agent/tools/adb_tools.py`, also
cited by the claim) has no minimum-size inclusion rule: on markup whose
single node carries the non-matching bounds string "b" it retains the
node with width 0 and height 0, so not every retained element has
width > 10 and height > 10. -/
theorem claim_C1_counterexample :
    parse_ui_elements_mqa c1_bad_markup
        = [⟨"a", "", "", false, false, 0, 0, 0, 0, none, ""⟩]
      ∧ ∃ e ∈ parse_ui_elements_mqa c1_bad_markup,
          ¬(10 < e.width ∧ 10 < e.height) := by
  constructor
  · decide
  · exact ⟨⟨"a", "", "", false, false, 0, 0, 0, 0, none, ""⟩, by decide, by decide⟩

/-- Claim C9 (amended): the ElementTree-based `parse_ui_elements` returns
the empty element list whenever the (cleaned-up) input has no parseable
document root — the caught `ET.ParseError`, modelled by the parse oracle
returning `none` — and, being total, never raises.  (The regex-based
duplicate can return elements for rootless markup — see
`claim_C9_counterexample`.) -/
theorem claim_C9_theorem
    (fromstring : String → Option XmlNode) (xml_content : String)
    (hroot : fromstring (xml_cleanup xml_content) = none) :
    parse_ui_elements fromstring xml_content = [] := by
  simp only [parse_ui_elements, hroot]

/-- Witness for C9: an oracle that rejects every document (no parseable
root) on an arbitrary garbage input yields the empty list. -/
theorem claim_C9_witness :
    parse_ui_elements (fun _ => none) "garbage &&& <<>>" = [] :=
  claim_C9_theorem (fun _ => none) "garbage &&& <<>>" rfl

/-- Counterexample for C9 as stated: the regex-based duplicate
`parse_ui_elements` (also cited by the claim) returns a non-empty element
list for `c9_bad_markup`, a truncated input whose node tag is never
closed and which therefore has no parseable document root. -/
theorem claim_C9_counterexample :
    parse_ui_elements_mqa c9_bad_markup
        = [⟨"a", "", "", false, false, 49, 49, 99, 99, some (0, 0, 99, 99), ""⟩]
      ∧ parse_ui_elements_mqa c9_bad_markup ≠ [] := by
  constructor
  · decide
  · decide

/-- Claim C2: with `prefer_clickable` set, `find_element_by_text`
resolves several matches by the ordered priority chain — Button-class
match first, then clickable match, then a match in the lower half of the
screen (vertical center beyond 1200, half of the default 2400-pixel
height), then the first match in traversal order — the first rule with a
non-empty subset winning and the subset's first element in traversal
order being returned; in particular a Button-class match beats any
plain-text duplicate regardless of traversal order. -/
theorem claim_C2_theorem (elements : List UIElement) (text : String) :
    (∀ b, (text_matches elements text true).find? is_button_class = some b →
        find_element_by_text elements text true true = some b)
    ∧ (∀ c, (text_matches elements text true).find? is_button_class = none →
        (text_matches elements text true).find? (fun e => e.clickable) = some c →
        find_element_by_text elements text true true = some c)
    ∧ (∀ l, (text_matches elements text true).find? is_button_class = none →
        (text_matches elements text true).find? (fun e => e.clickable) = none →
        ((text_matches elements text true).filter in_lower_half).head? = some l →
        find_element_by_text elements text true true = some l)
    ∧ (∀ m, (text_matches elements text true).find? is_button_class = none →
        (text_matches elements text true).find? (fun e => e.clickable) = none →
        ((text_matches elements text true).filter in_lower_half).head? = none →
        (text_matches elements text true).head? = some m →
        find_element_by_text elements text true true = some m) := by
  have hsingle : ∀ (x e : UIElement) (p : UIElement → Bool),
      List.find? p [x] = some e → e = x := by
    intro x e p h
    by_cases hp : p x
    · simp [List.find?, hp] at h; exact h.symm
    · simp [List.find?, hp] at h
  have hsingle2 : ∀ (x e : UIElement) (p : UIElement → Bool),
      (List.filter p [x]).head? = some e → e = x := by
    intro x e p h
    by_cases hp : p x
    · simp [hp] at h; exact h.symm
    · simp [hp] at h
  refine ⟨?_, ?_, ?_, ?_⟩
  · intro b hb
    simp only [find_element_by_text]
    by_cases hemp : text_matches elements text true = []
    · rw [hemp] at hb; simp at hb
    · by_cases hlen : (text_matches elements text true).length = 1
      · rcases List.length_eq_one.1 hlen with ⟨x, hx⟩
        rw [hx] at hb
        rcases hsingle x b is_button_class hb with rfl
        simp [hx]
      · simp [hemp, hlen, hb]
  · intro c hbtn hc
    simp only [find_element_by_text]
    by_cases hemp : text_matches elements text true = []
    · rw [hemp] at hc; simp at hc
    · by_cases hlen : (text_matches elements text true).length = 1
      · rcases List.length_eq_one.1 hlen with ⟨x, hx⟩
        rw [hx] at hc
        rcases hsingle x c (fun e => e.clickable) hc with rfl
        simp [hx]
      · simp [hemp, hlen, hbtn, hc]
  · intro l hbtn hclk hl
    simp only [find_element_by_text]
    by_cases hemp : text_matches elements text true = []
    · rw [hemp] at hl; simp at hl
    · by_cases hlen : (text_matches elements text true).length = 1
      · rcases List.length_eq_one.1 hlen with ⟨x, hx⟩
        rw [hx] at hl
        rcases hsingle2 x l in_lower_half hl with rfl
        simp [hx]
      · simp [hemp, hlen, hbtn, hclk, hl]
  · intro m hbtn hclk hlow hm
    simp only [find_element_by_text]
    by_cases hemp : text_matches elements text true = []
    · rw [hemp] at hm; simp at hm
    · by_cases hlen : (text_matches elements text true).length = 1
      · simp [hemp, hlen, hm]
      · simp [hemp, hlen, hbtn, hclk, hlow, hm]

/-- Witness for C2 (the spec §8 scenario): the TextView duplicate comes
first in traversal order, but the Button-class element is returned. -/
theorem claim_C2_witness :
    find_element_by_text [c2_textview, c2_button] "Create a vault" true true
      = some c2_button :=
  (claim_C2_theorem [c2_textview, c2_button] "Create a vault").1 c2_button (by decide)

/-- Invariant of the nearest-below scan: any produced element lies
strictly below `label_y`, comes from the scanned list or the incoming
accumulator, and its distance is minimal among the below-label candidates
scanned and the incoming accumulator; a `none` result means neither the
accumulator nor the list offered a below-label candidate. -/
theorem nearest_below_go_spec (y : Int) (fields : List UIElement) :
    ∀ (best0 : Option UIElement), (∀ b, best0 = some b → b.center_y > y) →
      (∀ b, nearest_below_go y fields best0 = some b →
          b.center_y > y ∧ (b ∈ fields ∨ best0 = some b))
      ∧ (∀ g ∈ fields, g.center_y > y → ∀ b,
          nearest_below_go y fields best0 = some b →
            b.center_y - y ≤ g.center_y - y)
      ∧ (∀ b0, best0 = some b0 → ∀ b,
          nearest_below_go y fields best0 = some b →
            b.center_y - y ≤ b0.center_y - y)
      ∧ (nearest_below_go y fields best0 = none →
          best0 = none ∧ ∀ g ∈ fields, ¬(g.center_y > y)) := by
  induction fields with
  | nil =>
    intro best0 h0
    refine ⟨?_, ?_, ?_, ?_⟩
    · intro b hb
      simp only [nearest_below_go] at hb
      exact ⟨h0 b hb, Or.inr hb⟩
    · intro g hg; simp at hg
    · intro b0 hb0 b hb
      simp only [nearest_below_go] at hb
      rw [hb0] at hb
      cases hb
      omega
    · intro hnone
      simp only [nearest_below_go] at hnone
      exact ⟨hnone, by intro g hg; simp at hg⟩
  | cons f rest ih =>
    intro best0 h0
    by_cases hfy : f.center_y > y
    · cases best0 with
      | none =>
        have h0f : ∀ b, (some f : Option UIElement) = some b → b.center_y > y := by
          intro b hb; cases hb; exact hfy
        have hrun : nearest_below_go y (f :: rest) none
            = nearest_below_go y rest (some f) := by
          simp [nearest_below_go, hfy]
        have IH := ih (some f) h0f
        refine ⟨?_, ?_, ?_, ?_⟩
        · intro b hb
          rw [hrun] at hb
          rcases IH.1 b hb with ⟨hby, hmem | hbf⟩
          · exact ⟨hby, Or.inl (List.mem_cons_of_mem f hmem)⟩
          · cases hbf; exact ⟨hby, Or.inl (List.mem_cons_self f rest)⟩
        · intro g hg hgy b hb
          rw [hrun] at hb
          rcases List.mem_cons.1 hg with rfl | hg'
          · exact IH.2.2.1 g rfl b hb
          · exact IH.2.1 g hg' hgy b hb
        · intro b0 hb0 b hb
          cases hb0
        · intro hnone
          rw [hrun] at hnone
          rcases IH.2.2.2 hnone with ⟨habs, _⟩
          cases habs
      | some b0 =>
        have hb0y : b0.center_y > y := h0 b0 rfl
        by_cases hlt : f.center_y - y < b0.center_y - y
        · have h0f : ∀ b, (some f : Option UIElement) = some b → b.center_y > y := by
            intro b hb; cases hb; exact hfy
          have hrun : nearest_below_go y (f :: rest) (some b0)
              = nearest_below_go y rest (some f) := by
            simp [nearest_below_go, hfy, hlt]
          have IH := ih (some f) h0f
          refine ⟨?_, ?_, ?_, ?_⟩
          · intro b hb
            rw [hrun] at hb
            rcases IH.1 b hb with ⟨hby, hmem | hbf⟩
            · exact ⟨hby, Or.inl (List.mem_cons_of_mem f hmem)⟩
            · cases hbf; exact ⟨hby, Or.inl (List.mem_cons_self f rest)⟩
          · intro g hg hgy b hb
            rw [hrun] at hb
            rcases List.mem_cons.1 hg with rfl | hg'
            · exact IH.2.2.1 g rfl b hb
            · exact IH.2.1 g hg' hgy b hb
          · intro b0' hb0' b hb
            cases hb0'
            rw [hrun] at hb
            have := IH.2.2.1 f rfl b hb
            omega
          · intro hnone
            rw [hrun] at hnone
            rcases IH.2.2.2 hnone with ⟨habs, _⟩
            cases habs
        · have hrun : nearest_below_go y (f :: rest) (some b0)
              = nearest_below_go y rest (some b0) := by
            simp [nearest_below_go, hfy, hlt]
          have IH := ih (some b0) h0
          refine ⟨?_, ?_, ?_, ?_⟩
          · intro b hb
            rw [hrun] at hb
            rcases IH.1 b hb with ⟨hby, hmem | hbf⟩
            · exact ⟨hby, Or.inl (List.mem_cons_of_mem f hmem)⟩
            · exact ⟨hby, Or.inr hbf⟩
          · intro g hg hgy b hb
            rw [hrun] at hb
            rcases List.mem_cons.1 hg with rfl | hg'
            · have := IH.2.2.1 b0 rfl b hb
              omega
            · exact IH.2.1 g hg' hgy b hb
          · intro b0' hb0' b hb
            cases hb0'
            rw [hrun] at hb
            exact IH.2.2.1 b0 rfl b hb
          · intro hnone
            rw [hrun] at hnone
            rcases IH.2.2.2 hnone with ⟨habs, _⟩
            cases habs
    · have hrun : nearest_below_go y (f :: rest) best0
          = nearest_below_go y rest best0 := by
        cases best0 <;> simp [nearest_below_go, hfy]
      have IH := ih best0 h0
      refine ⟨?_, ?_, ?_, ?_⟩
      · intro b hb
        rw [hrun] at hb
        rcases IH.1 b hb with ⟨hby, hmem | hbf⟩
        · exact ⟨hby, Or.inl (List.mem_cons_of_mem f hmem)⟩
        · exact ⟨hby, Or.inr hbf⟩
      · intro g hg hgy b hb
        rw [hrun] at hb
        rcases List.mem_cons.1 hg with rfl | hg'
        · exact absurd hgy hfy
        · exact IH.2.1 g hg' hgy b hb
      · intro b0 hb0 b hb
        rw [hrun] at hb
        exact IH.2.2.1 b0 hb0 b hb
      · intro hnone
        rw [hrun] at hnone
        rcases IH.2.2.2 hnone with ⟨hb0, hrest⟩
        refine ⟨hb0, ?_⟩
        intro g hg
        rcases List.mem_cons.1 hg with rfl | hg'
        · exact hfy
        · exact hrest g hg'

/-- Claim C3: when a label is supplied to `find_input_field`, it resolves,
and some input-field candidate lies strictly below it, the function
returns a candidate strictly below the label whose vertical distance to
the label is minimal among all below-label candidates (nearest-below
wins), not merely the first candidate in document order. -/
theorem claim_C3_theorem (elements : List UIElement) (label : String)
    (lab f : UIElement)
    (hlab : find_element_by_text elements label true true = some lab)
    (hf : f ∈ input_field_candidates elements (some label))
    (hbelow : f.center_y > lab.center_y) :
    ∃ best, find_input_field elements (some label) = some best
      ∧ best ∈ input_field_candidates elements (some label)
      ∧ best.center_y > lab.center_y
      ∧ ∀ g ∈ input_field_candidates elements (some label),
          g.center_y > lab.center_y →
            best.center_y - lab.center_y ≤ g.center_y - lab.center_y := by
  have hne : input_field_candidates elements (some label) ≠ [] := by
    intro h; rw [h] at hf; simp at hf
  have spec := nearest_below_go_spec lab.center_y
    (input_field_candidates elements (some label)) none (by intro b hb; cases hb)
  cases hres : nearest_below_go lab.center_y
      (input_field_candidates elements (some label)) none with
  | none => exact absurd hbelow ((spec.2.2.2 hres).2 f hf)
  | some best =>
    refine ⟨best, ?_, ?_, (spec.1 best hres).1, ?_⟩
    · simp [find_input_field, hne, hlab, hres]
    · rcases spec.1 best hres with ⟨_, hmem | habs⟩
      · exact hmem
      · cases habs
    · intro g hg hgy
      exact spec.2.1 g hg hgy best hres

/-- Witness for C3: with the label at vertical center 100 and two
EditText candidates at centers 500 (first in document order) and 200,
`find_input_field` returns the candidate at 200 — the nearest below the
label, not the first in document order. -/
theorem claim_C3_witness :
    find_input_field c3_elements (some "Vault name") = some c3_input_near
    ∧ ∃ best, find_input_field c3_elements (some "Vault name") = some best
        ∧ best ∈ input_field_candidates c3_elements (some "Vault name")
        ∧ best.center_y > c3_label.center_y
        ∧ ∀ g ∈ input_field_candidates c3_elements (some "Vault name"),
            g.center_y > c3_label.center_y →
              best.center_y - c3_label.center_y ≤ g.center_y - c3_label.center_y :=
  ⟨by decide,
   claim_C3_theorem c3_elements "Vault name" c3_label c3_input_near
     (by decide) (by decide) (by decide)⟩

/-- Claim C4: when the last three history records carry identical
(kind, parameters), the next planning step returns the terminal stuck-loop
failure, for every test case and every externally proposed action — the
loop check short-circuits `plan_next_action` before the enforcement check
and before the external proposal is consulted, which the universal
quantification over `proposal` expresses. -/
theorem claim_C4_theorem (history : List HistAction) (x y z : HistAction)
    (hdrop : history.drop (history.length - 3) = [x, y, z])
    (htype : x.action_type = y.action_type ∧ y.action_type = z.action_type)
    (hparams : x.action_params = y.action_params
      ∧ y.action_params = z.action_params) :
    ∀ (test_case : String) (proposal : AgentAction),
      plan_next_action history test_case proposal = stuck_loop_action := by
  intro tc proposal
  have hlen : ¬ history.length < 3 := by
    have h3 : (history.drop (history.length - 3)).length = 3 := by rw [hdrop]; rfl
    rw [List.length_drop] at h3
    omega
  have hkey1 : loop_key x = loop_key y := by
    unfold loop_key; rw [htype.1, hparams.1]
  have hkey2 : loop_key y = loop_key z := by
    unfold loop_key; rw [htype.2, hparams.2]
  have hloop : check_for_loop history = some stuck_loop_action := by
    simp only [check_for_loop, hdrop]
    rw [if_neg hlen]
    simp [hkey1, hkey2]
  simp [plan_next_action, hloop]

/-- Witness for C4: three identical tap records trigger the stuck-loop
failure regardless of the proposal. -/
theorem claim_C4_witness :
    plan_next_action c4_history "Create a new Vault named InternVault"
      ⟨"try the button again", "tap_element", [("text", PValue.s "Create a vault")]⟩
      = stuck_loop_action :=
  claim_C4_theorem c4_history c4_rec c4_rec c4_rec rfl ⟨rfl, rfl⟩ ⟨rfl, rfl⟩
    "Create a new Vault named InternVault"
    ⟨"try the button again", "tap_element", [("text", PValue.s "Create a vault")]⟩

/-- Claim C5: when the last four history records alternate kinds A,B,A,B
with A ≠ B, the next planning step returns the terminal oscillation
failure, for every test case and every externally proposed action. -/
theorem claim_C5_theorem (history : List HistAction) (a b c d : HistAction)
    (hdrop : history.drop (history.length - 4) = [a, b, c, d])
    (h02 : a.action_type = c.action_type)
    (h13 : b.action_type = d.action_type)
    (hne : a.action_type ≠ b.action_type) :
    ∀ (test_case : String) (proposal : AgentAction),
      plan_next_action history test_case proposal = oscillation_action := by
  intro tc proposal
  have hlen4 : 4 ≤ history.length := by
    have h4 : (history.drop (history.length - 4)).length = 4 := by rw [hdrop]; rfl
    rw [List.length_drop] at h4
    omega
  have hlen3 : ¬ history.length < 3 := by omega
  have hdrop3 : history.drop (history.length - 3) = [b, c, d] := by
    have heq : history.length - 3 = (history.length - 4) + 1 := by omega
    rw [heq, ← List.drop_drop, hdrop]
    rfl
  have hbc : ¬ (loop_key b = loop_key c ∧ loop_key c = loop_key d) := by
    intro hk
    have : b.action_type = c.action_type := congrArg Prod.fst hk.1
    exact hne (h02.trans this.symm)
  have hcd : ¬ c.action_type = d.action_type := by
    rw [← h02, ← h13]; exact hne
  have hloop : check_for_loop history = some oscillation_action := by
    simp only [check_for_loop, hdrop3, hdrop]
    rw [if_neg hlen3]
    simp [hbc, hlen4, h02, h13, hne, hcd]
  simp [plan_next_action, hloop]

/-- Witness for C5: a press-back / press-enter alternation triggers the
oscillation failure regardless of the proposal. -/
theorem claim_C5_witness :
    plan_next_action c5_history "Create a new Vault named InternVault"
      ⟨"go back once more", "press_back", []⟩ = oscillation_action :=
  claim_C5_theorem c5_history c5_a c5_b c5_a c5_b rfl rfl rfl (by decide)
    "Create a new Vault named InternVault" ⟨"go back once more", "press_back", []⟩

/-- `check_for_loop` only ever reports the two failure dicts. -/
theorem check_for_loop_failed (history : List HistAction) (a : AgentAction)
    (h : check_for_loop history = some a) :
    a = stuck_loop_action ∨ a = oscillation_action := by
  by_cases h3 : history.length < 3
  · simp [check_for_loop, h3] at h
  · simp only [check_for_loop, if_neg h3] at h
    split at h
    · exact Or.inl (Option.some.inj h).symm
    · split at h
      · split at h
        · split at h
          · exact Or.inr (Option.some.inj h).symm
          · cases h
        · cases h
      · cases h

/-- Claim C6: after a successful focus-input action, when the externally
proposed action is not type-text: if the expected-text table has an entry
for the test description (substring match on the lowercased text), the
executed action is the forced type-text with that payload; if the table
has no entry (and no loop/oscillation fires), the proposal passes through
unchanged. -/
theorem claim_C6_theorem (history : List HistAction) (test_case : String)
    (proposal : AgentAction) (last : HistAction)
    (hlast : history.getLast? = some last)
    (hkind : last.action_type = "tap_input_by_label"
      ∨ last.action_type = "tap_input")
    (hsucc : last.result = "success")
    (_hprop : proposal.action_type ≠ "type_text") :
    (∀ t, expected_text_for_test test_case = some t →
        (next_executed_action history test_case proposal).action_type = "type_text"
        ∧ (next_executed_action history test_case proposal).action_params
            = [("text", PValue.s t)])
    ∧ (expected_text_for_test test_case = none →
        check_for_loop history = none →
        next_executed_action history test_case proposal = proposal) := by
  have hkind' : last.action_type = "tap_input"
      ∨ last.action_type = "tap_input_by_label" := hkind.symm
  constructor
  · intro t ht
    cases hloop : check_for_loop history with
    | some a =>
      have hplan : plan_next_action history test_case proposal = a := by
        simp [plan_next_action, hloop]
      have hfail : a.action_type ≠ "type_text" := by
        rcases check_for_loop_failed history a hloop with rfl | rfl <;> decide
      constructor <;>
        simp [next_executed_action, hplan, hlast, hkind', hfail, ht,
          override_type_text_action]
    | none =>
      have hreq : get_required_next_action history test_case
          = some (forced_type_text_action t) := by
        simp [get_required_next_action, hlast, hkind, hsucc, ht]
      have hplan : plan_next_action history test_case proposal
          = forced_type_text_action t := by
        simp [plan_next_action, hloop, hreq]
      constructor <;>
        simp [next_executed_action, hplan, hlast, forced_type_text_action]
  · intro ht hloop
    have hne1 : ¬ last.action_type = "type_text" := by
      rcases hkind with h | h <;> rw [h] <;> decide
    have hreq : get_required_next_action history test_case = none := by
      simp [get_required_next_action, hlast, hkind, hsucc, ht, hne1]
    have hplan : plan_next_action history test_case proposal = proposal := by
      simp [plan_next_action, hloop, hreq]
    by_cases hpt : proposal.action_type = "type_text"
    · simp [next_executed_action, hplan, hlast, hpt]
    · simp [next_executed_action, hplan, hlast, hkind', hpt, ht]

/-- Witness for C6 (the spec §8 scenario): history
`[focus-input-by-label(success)]`, proposal `tap_element("Create a
vault")`, test description containing "InternVault"; the executed action
is `type_text` with payload "InternVault". -/
theorem claim_C6_witness :
    (next_executed_action c6_history c6_test_case c6_proposal).action_type
        = "type_text"
      ∧ (next_executed_action c6_history c6_test_case c6_proposal).action_params
        = [("text", PValue.s "InternVault")] :=
  (claim_C6_theorem c6_history c6_test_case c6_proposal c6_last rfl
      (Or.inl rfl) rfl (by decide)).1 "InternVault" (by decide)

/-- Field effects of one `record_step` call: exactly one step record is
appended, its base reward is the step-penalty constant, its subgoal
reward is its newly-achieved count times the bonus constant, the counters
and totals advance accordingly, and the completion bonus is untouched. -/
theorem record_step_fields (st : MetricsTracker) (inp : StepInput) :
    ∃ stp : StepMetrics,
      (st.record_step inp).steps = st.steps ++ [stp]
      ∧ stp.base_reward = STEP_PENALTY
      ∧ stp.subgoal_reward
          = (stp.newly_achieved_subgoals.length : ℚ) * SUBGOAL_REWARD
      ∧ (st.record_step inp).total_steps = st.total_steps + 1
      ∧ (st.record_step inp).successful_steps
          = (if inp.success then st.successful_steps + 1 else st.successful_steps)
      ∧ (st.record_step inp).failed_steps
          = (if inp.success then st.failed_steps else st.failed_steps + 1)
      ∧ (st.record_step inp).step_penalty_total
          = st.step_penalty_total + STEP_PENALTY
      ∧ (st.record_step inp).subgoal_reward_total
          = st.subgoal_reward_total + stp.subgoal_reward
      ∧ (st.record_step inp).completion_bonus = st.completion_bonus :=
  ⟨_, rfl, rfl, rfl, rfl, rfl, rfl, rfl, rfl, rfl⟩

/-- Summing a constant-valued map. -/
theorem list_sum_map_const {α : Type} (l : List α) (f : α → ℚ) (c : ℚ)
    (h : ∀ s ∈ l, f s = c) : (l.map f).sum = (l.length : ℚ) * c := by
  induction l with
  | nil => simp
  | cons a t ih =>
    simp only [List.map_cons, List.sum_cons, List.length_cons]
    rw [h a (List.mem_cons_self a t), ih (fun s hs => h s (List.mem_cons_of_mem a hs))]
    push_cast
    ring

/-- Summing a map whose values are Nat multiples of a constant. -/
theorem list_sum_map_scaled {α : Type} (l : List α) (f : α → ℚ) (g : α → Nat)
    (c : ℚ) (h : ∀ s ∈ l, f s = (g s : ℚ) * c) :
    (l.map f).sum = ((l.map g).sum : ℚ) * c := by
  induction l with
  | nil => simp
  | cons a t ih =>
    simp only [List.map_cons, List.sum_cons]
    rw [h a (List.mem_cons_self a t), ih (fun s hs => h s (List.mem_cons_of_mem a hs))]
    push_cast
    ring

/-- The bookkeeping invariant of `record_step`, carried along any run:
success and failure counts partition the step count, the step count is
the length of the step list, the penalty and subgoal totals are the sums
of the per-step components, every recorded base reward is the penalty
constant, every recorded subgoal reward is the newly-achieved count times
the bonus constant, and the completion bonus stays zero until
`finalize`. -/
theorem run_steps_invariant (inputs : List StepInput) :
    ∀ st : MetricsTracker,
      st.successful_steps + st.failed_steps = st.total_steps →
      st.total_steps = st.steps.length →
      st.step_penalty_total = (st.steps.map StepMetrics.base_reward).sum →
      st.subgoal_reward_total = (st.steps.map StepMetrics.subgoal_reward).sum →
      (∀ s ∈ st.steps, s.base_reward = STEP_PENALTY) →
      (∀ s ∈ st.steps, s.subgoal_reward
          = (s.newly_achieved_subgoals.length : ℚ) * SUBGOAL_REWARD) →
      st.completion_bonus = 0 →
      (run_steps st inputs).successful_steps + (run_steps st inputs).failed_steps
          = (run_steps st inputs).total_steps
      ∧ (run_steps st inputs).total_steps = (run_steps st inputs).steps.length
      ∧ (run_steps st inputs).step_penalty_total
          = ((run_steps st inputs).steps.map StepMetrics.base_reward).sum
      ∧ (run_steps st inputs).subgoal_reward_total
          = ((run_steps st inputs).steps.map StepMetrics.subgoal_reward).sum
      ∧ (∀ s ∈ (run_steps st inputs).steps, s.base_reward = STEP_PENALTY)
      ∧ (∀ s ∈ (run_steps st inputs).steps, s.subgoal_reward
          = (s.newly_achieved_subgoals.length : ℚ) * SUBGOAL_REWARD)
      ∧ (run_steps st inputs).completion_bonus = 0 := by
  induction inputs with
  | nil =>
    intro st h1 h2 h3 h4 h5 h5b h6
    exact ⟨h1, h2, h3, h4, h5, h5b, h6⟩
  | cons inp rest ih =>
    intro st h1 h2 h3 h4 h5 h5b h6
    have hrun : run_steps st (inp :: rest)
        = run_steps ((st.start_step).record_step inp) rest := by
      simp [run_steps]
    rw [hrun]
    obtain ⟨stp, hsteps, hbase, hscaled, htot, hsucc, hfail, hpen, hsub, hbon⟩ :=
      record_step_fields st.start_step inp
    apply ih
    · rw [hsucc, hfail, htot]
      cases inp.success <;> simp [MetricsTracker.start_step] <;> omega
    · rw [htot, hsteps]
      simp [MetricsTracker.start_step]
      exact h2
    · rw [hpen, hsteps]
      simp only [List.map_append, List.sum_append, List.map_cons, List.map_nil,
        List.sum_cons, List.sum_nil, add_zero]
      rw [hbase]
      show st.step_penalty_total + STEP_PENALTY
        = (st.steps.map StepMetrics.base_reward).sum + STEP_PENALTY
      rw [h3]
    · rw [hsub, hsteps]
      simp only [List.map_append, List.sum_append, List.map_cons, List.map_nil,
        List.sum_cons, List.sum_nil, add_zero]
      show st.subgoal_reward_total + stp.subgoal_reward
        = (st.steps.map StepMetrics.subgoal_reward).sum + stp.subgoal_reward
      rw [h4]
    · rw [hsteps]
      intro s hs
      rcases List.mem_append.1 hs with hs' | hs'
      · exact h5 s hs'
      · rw [List.mem_singleton.1 hs']
        exact hbase
    · rw [hsteps]
      intro s hs
      rcases List.mem_append.1 hs with hs' | hs'
      · exact h5b s hs'
      · rw [List.mem_singleton.1 hs']
        exact hscaled
    · rw [hbon]
      exact h6

/-- Claim C10: every `record_step` call appends exactly one step record
and advances `total_steps` by one; along any run from a fresh tracker,
`successful_steps + failed_steps = total_steps = length of the step
list`, and the accumulated step penalty equals `total_steps` times the
step-penalty constant (−0.05). -/
theorem claim_C10_theorem :
    (∀ (st : MetricsTracker) (inp : StepInput),
        (st.record_step inp).steps.length = st.steps.length + 1
        ∧ (st.record_step inp).total_steps = st.total_steps + 1)
    ∧ (∀ (tc exp : String) (wf : List RefStep) (sg : List String)
          (inputs : List StepInput),
        (run_steps (MetricsTracker.init tc wf sg exp) inputs).successful_steps
            + (run_steps (MetricsTracker.init tc wf sg exp) inputs).failed_steps
          = (run_steps (MetricsTracker.init tc wf sg exp) inputs).total_steps
        ∧ (run_steps (MetricsTracker.init tc wf sg exp) inputs).total_steps
          = (run_steps (MetricsTracker.init tc wf sg exp) inputs).steps.length
        ∧ (run_steps (MetricsTracker.init tc wf sg exp) inputs).step_penalty_total
          = ((run_steps (MetricsTracker.init tc wf sg exp) inputs).total_steps : ℚ)
              * STEP_PENALTY) := by
  constructor
  · intro st inp
    obtain ⟨stp, hsteps, _, _, htot, _⟩ := record_step_fields st inp
    refine ⟨?_, htot⟩
    rw [hsteps]
    simp
  · intro tc exp wf sg inputs
    obtain ⟨h1, h2, h3, _, h5, _, _⟩ :=
      run_steps_invariant inputs (MetricsTracker.init tc wf sg exp)
        rfl rfl rfl rfl (by intro s hs; simp [MetricsTracker.init] at hs)
        (by intro s hs; simp [MetricsTracker.init] at hs) rfl
    refine ⟨h1, h2, ?_⟩
    rw [h3, list_sum_map_const _ _ STEP_PENALTY h5, h2]


/-- Claim C7: for every finalized run, the total reward is the sum of the
per-step base rewards plus the sum of the per-step subgoal rewards plus
the completion bonus (1.0 exactly when the result is "PASS"); in
particular the concrete five-step run `c7_final` with two satisfied
subgoals at bonus 0.2 each, step penalty −0.05 and a PASS totals
5·(−0.05) + 2·0.2 + 1.0 = 1.15 = 23/20. -/
theorem claim_C7_theorem :
    (∀ (tc exp : String) (wf : List RefStep) (sg : List String)
        (inputs : List StepInput) (res rt rs : String),
      ((run_steps (MetricsTracker.init tc wf sg exp) inputs).finalize res rt rs).total_reward
        = ((run_steps (MetricsTracker.init tc wf sg exp) inputs).steps.map
            StepMetrics.base_reward).sum
          + ((run_steps (MetricsTracker.init tc wf sg exp) inputs).steps.map
            StepMetrics.subgoal_reward).sum
          + (if res = "PASS" then COMPLETION_BONUS else 0))
    ∧ c7_final.total_reward = 23 / 20
    ∧ c7_final.total_steps = 5
    ∧ c7_final.achieved_subgoals_final = ["tap_create_vault", "handle_sync_screen"]
    ∧ c7_final.step_penalty_total = 5 * STEP_PENALTY
    ∧ c7_final.subgoal_reward_total = 2 * SUBGOAL_REWARD
    ∧ c7_final.completion_bonus = COMPLETION_BONUS := by
  have hconcrete := run_steps_invariant c7_inputs
    (MetricsTracker.init "Create a new Vault named InternVault"
      ideal_workflow_1 subgoals_1 "PASS")
    rfl rfl rfl rfl (by intro s hs; simp [MetricsTracker.init] at hs)
    (by intro s hs; simp [MetricsTracker.init] at hs) rfl
  obtain ⟨_, c2, c3, c4, c5, c5b, _⟩ := hconcrete
  have hrunfold : run_steps (MetricsTracker.init
      "Create a new Vault named InternVault" ideal_workflow_1 subgoals_1 "PASS")
      c7_inputs = c7_run := rfl
  rw [hrunfold] at c2 c3 c4 c5 c5b
  have hlen : c7_run.steps.length = 5 := by decide
  have hg : (c7_run.steps.map (fun s => s.newly_achieved_subgoals.length)).sum = 2 := by
    decide
  have hpen : c7_run.step_penalty_total = 5 * STEP_PENALTY := by
    rw [c3, list_sum_map_const _ _ STEP_PENALTY c5, hlen]
    norm_num
  have hsubtot : c7_run.subgoal_reward_total = 2 * SUBGOAL_REWARD := by
    rw [c4, list_sum_map_scaled _ _ (fun s => s.newly_achieved_subgoals.length)
      SUBGOAL_REWARD c5b, hg]
    norm_num
  have htotal : c7_final.total_reward
      = c7_run.step_penalty_total + c7_run.subgoal_reward_total
        + COMPLETION_BONUS := by
    simp [c7_final, MetricsTracker.finalize]
  refine ⟨?_, ?_, by decide, by decide, hpen, hsubtot, ?_⟩
  · intro tc exp wf sg inputs res rt rs
    obtain ⟨_, _, h3, h4, _, _, h6⟩ :=
      run_steps_invariant inputs (MetricsTracker.init tc wf sg exp)
        rfl rfl rfl rfl (by intro s hs; simp [MetricsTracker.init] at hs)
        (by intro s hs; simp [MetricsTracker.init] at hs) rfl
    by_cases hres : res = "PASS" <;>
      simp [MetricsTracker.finalize, hres, h3, h4, h6]
  · rw [htotal, hpen, hsubtot]
    norm_num [STEP_PENALTY, SUBGOAL_REWARD, COMPLETION_BONUS]
  · simp [c7_final, MetricsTracker.finalize]

/-- The matcher's scan is the first-match search over the index-annotated
workflow suffix. -/
theorem match_scan_eq_find? (al ps : String) (wf : List RefStep) :
    ∀ (k : Nat) (matched : List Nat),
      match_scan wf k matched al ps
        = (List.enumFrom k wf).find? (fun p =>
            decide (p.1 ∉ matched) && ideal_step_accepts p.2 al ps) := by
  induction wf with
  | nil => intro k matched; simp [match_scan]
  | cons s rest ih =>
    intro k matched
    simp only [match_scan, List.enumFrom]
    by_cases hk : k ∈ matched
    · rw [if_pos hk, List.find?_cons_of_neg, ih]
      simp [hk]
    · by_cases hacc : ideal_step_accepts s al ps = true
      · rw [if_neg hk, if_pos hacc, List.find?_cons_of_pos]
        simp [hk, hacc]
      · rw [if_neg hk, if_neg hacc, List.find?_cons_of_neg, ih]
        simp [hk, hacc]

/-- Claim C8 (amended): `_match_ideal_action` claims exactly the first
not-yet-matched index, in original index order, whose reference step
accepts the action — where acceptance means the tool identifiers are
equal after lower-casing and underscore removal (not literal equality —
see `claim_C8_counterexample`), with observe-screen
(`get_screen_elements`) steps accepting unconditionally and other steps
additionally requiring an expected-parameter value (when given) to appear
in the serialized action parameters; a claimed index is never inside the
matched set, so a claimed index is never claimed again. -/
theorem claim_C8_theorem :
    (∀ (wf : List RefStep) (matched : List Nat) (action_type : String)
        (params : List (String × PValue)),
      (match_ideal_action wf matched action_type params).map Prod.fst
        = spec_first_unmatched_claim wf matched (strLower action_type)
            (params_str_of params))
    ∧ (∀ (wf : List RefStep) (matched : List Nat) (action_type : String)
        (params : List (String × PValue)) (i : Nat) (step : RefStep),
        match_ideal_action wf matched action_type params = some (i, step) →
          i ∉ matched ∧ wf[i]? = some step
          ∧ ideal_step_accepts step (strLower action_type) (params_str_of params)
              = true)
    ∧ (∀ (wf : List RefStep) (matched : List Nat) (action_type : String)
        (params : List (String × PValue)) (i : Nat), i ∈ matched →
        (match_ideal_action wf matched action_type params).map Prod.fst
          ≠ some i) := by
  have hc2 : ∀ (wf : List RefStep) (matched : List Nat) (action_type : String)
      (params : List (String × PValue)) (i : Nat) (step : RefStep),
      match_ideal_action wf matched action_type params = some (i, step) →
        i ∉ matched ∧ wf[i]? = some step
        ∧ ideal_step_accepts step (strLower action_type) (params_str_of params)
            = true := by
    intro wf matched a p i step h
    rw [match_ideal_action, match_scan_eq_find?] at h
    have hmem := List.mem_of_find?_eq_some h
    have hpred := List.find?_some h
    simp only [Bool.and_eq_true, decide_eq_true_eq] at hpred
    have hget := (List.mk_mem_enumFrom_iff_le_and_getElem?_sub.1 hmem).2
    simp only [Nat.sub_zero] at hget
    exact ⟨hpred.1, hget, hpred.2⟩
  refine ⟨?_, hc2, ?_⟩
  · intro wf matched a p
    rw [match_ideal_action, match_scan_eq_find?]
    rfl
  · intro wf matched a p i hi h
    rcases Option.map_eq_some'.1 h with ⟨⟨i', step⟩, hms, hfst⟩
    simp only at hfst
    subst hfst
    exact (hc2 wf matched a p i' step hms).1 hi

/-- Counterexample for C8 as stated: the action kind "getscreenelements"
is not equal to the reference tool "get_screen_elements", yet the matcher
claims that reference step — the comparison removes underscores, so the
claim's "tool identifier equals the action's kind" does not describe the
code. -/
theorem claim_C8_counterexample :
    match_ideal_action [⟨"get_screen_elements", [], "Check initial screen"⟩] []
        "getscreenelements" []
      = some (0, ⟨"get_screen_elements", [], "Check initial screen"⟩)
    ∧ "getscreenelements" ≠ "get_screen_elements" :=
  ⟨by decide, by decide⟩

/-- Witness for C8: on the Create Vault workflow with index 0 already
matched, a `tap_element_by_text` action whose parameters contain
"Create a vault" claims index 1, which is outside the matched set. -/
theorem claim_C8_witness :
    (match_ideal_action ideal_workflow_1 [0] "tap_element_by_text"
        [("text", PValue.s "Create a vault")]).map Prod.fst
      = spec_first_unmatched_claim ideal_workflow_1 [0]
          (strLower "tap_element_by_text")
          (params_str_of [("text", PValue.s "Create a vault")])
    ∧ (1 ∉ ([0] : List Nat))
    ∧ ideal_workflow_1[1]?
      = some ⟨"tap_element_by_text", [("text", PValue.s "Create a vault")],
          "Tap Create a vault button"⟩ := by
  have h := claim_C8_theorem.2.1 ideal_workflow_1 [0] "tap_element_by_text"
    [("text", PValue.s "Create a vault")] 1
    ⟨"tap_element_by_text", [("text", PValue.s "Create a vault")],
      "Tap Create a vault button"⟩ (by decide)
  exact ⟨claim_C8_theorem.1 ideal_workflow_1 [0] "tap_element_by_text"
    [("text", PValue.s "Create a vault")], h.1, h.2.1⟩
